import Mathlib

/-!
# Shallow embedding of the streaming VAD core (`src/vad/SileroVAD.ts`)

This file models the `SileroVAD` class of the realtime-audio SDK as a pure
state machine.  Audio samples are rationals (the TS code holds `Float32Array`
chunks; all sample values are opaque to the logic here and only reach the
scorer), timestamps and durations are rationals, and the ONNX inference call
(`session.run` inside `processFrame`) is abstracted as a caller-supplied
`Scorer` function on a window and an opaque recurrent-state token, which may
fail (the promise may reject).  Event emission (`this.emit(...)`) is modelled
by returning the list of events raised during a call, in emission order.
A thrown/rejected JS error is modelled by `Except.error` carrying the object
state at the point of the throw (JS exceptions do not roll back mutations).
-/

set_option maxRecDepth 100000

namespace SileroVAD

/-- JS `Math.ceil` on a finite rational: the ceiling, written with floor
division so that it evaluates by kernel reduction (`q.den > 0`, so
`(-q.num).ediv q.den` is `⌊-q⌋`). -/
def mathCeil (q : ℚ) : ℤ :=
  -((-q.num).ediv (q.den : ℤ))

/-- The two values of the `state` field (`'non-speech' | 'speech'`). -/
inductive SpeechState where
  | nonSpeech : SpeechState
  | speech : SpeechState
deriving DecidableEq, Repr

/-- The resolved configuration (`Required<SileroVADConfig>`), restricted to the
fields the VAD logic reads.  Thresholds are probabilities, durations are in
milliseconds, exactly as in the TS type. -/
structure VADConfig where
  positiveSpeechThreshold : ℚ
  negativeSpeechThreshold : ℚ
  silenceDuration : ℚ
  preSpeechPadDuration : ℚ
  minSpeechDuration : ℚ
deriving DecidableEq, Repr

/-- The optional constructor argument (`SileroVADConfig`): every field may be
absent, in which case the constructor substitutes a default. -/
structure SileroVADConfigInput where
  positiveSpeechThreshold : Option ℚ
  negativeSpeechThreshold : Option ℚ
  silenceDuration : Option ℚ
  preSpeechPadDuration : Option ℚ
  minSpeechDuration : Option ℚ
deriving DecidableEq, Repr

/-- The segment object built by `createSpeechSegment` (the TS field `end` is a
Lean keyword and is called `stop` here; `start` and `stop` are in seconds,
`duration` in milliseconds). -/
structure Segment where
  start : ℚ
  stop : ℚ
  duration : ℚ
  audioData : List ℚ
deriving DecidableEq, Repr

/-- Payload of an emitted event (`VADEventData`). -/
structure VADEventData where
  isSpeech : Bool
  probability : ℚ
  timestamp : ℚ
  segment : Option Segment
deriving DecidableEq, Repr

/-- The two events the class emits (`'speech-start'`, `'speech-end'`). -/
inductive VADEvent where
  | speechStart : VADEventData → VADEvent
  | speechEnd : VADEventData → VADEvent
deriving DecidableEq, Repr

/-- The mutable fields of a `SileroVAD` instance that the processing logic
reads or writes.  `stateTensor` (the `[2,1,128]` ONNX state tensor) is opaque
to the logic, so it is modelled as a single rational token. -/
structure VADState where
  state : SpeechState
  stateTensor : ℚ
  audioBuffer : List (List ℚ)
  speechStartTime : ℚ
  consecutiveSilenceMs : ℚ
  speechStartBufferIndex : ℕ
  sampleBuffer : List ℚ
  lastProbability : ℚ
  lastIsSpeech : Bool
  lastTimestamp : ℚ
  positiveSpeechFrames : ℕ
deriving DecidableEq, Repr

/-- The external scorer: given one window and the current recurrent-state
token, returns the speech probability and the replacement token, or fails
(models `processFrame`, whose `session.run` may reject). -/
abbrev Scorer := List ℚ → ℚ → Except Unit (ℚ × ℚ)

/-- Silero v5 window size in samples (`this.frameSize = 512`). -/
def frameSize : ℕ := 512

/-- The value returned by `process` (`{ isSpeech, probability }`). -/
structure ProcessResult where
  isSpeech : Bool
  probability : ℚ
deriving DecidableEq, Repr

/-- State after `resetStates()` and construction: `'non-speech'`, empty
buffers, zeroed counters, zero recurrent state. -/
def initialState : VADState where
  state := SpeechState.nonSpeech
  stateTensor := 0
  audioBuffer := []
  speechStartTime := 0
  consecutiveSilenceMs := 0
  speechStartBufferIndex := 0
  sampleBuffer := []
  lastProbability := 0
  lastIsSpeech := false
  lastTimestamp := 0
  positiveSpeechFrames := 0

/-- The constructor (lines 50–67): it merges the caller's configuration with
the documented defaults and sets `frameSize`.  Its body contains no validation
and no `throw`; it is wrapped in `Except` so that the (absent) failure path is
expressible.  (`initialize()` only loads the model file, an external effect
outside this embedding.) -/
def constructSileroVAD (config : SileroVADConfigInput) :
    Except Unit (VADConfig × VADState) :=
  Except.ok
    ({ positiveSpeechThreshold := config.positiveSpeechThreshold.getD (3 / 10)
       negativeSpeechThreshold := config.negativeSpeechThreshold.getD (1 / 4)
       silenceDuration := config.silenceDuration.getD 1400
       preSpeechPadDuration := config.preSpeechPadDuration.getD 800
       minSpeechDuration := config.minSpeechDuration.getD 400 },
     initialState)

/-- JS `arr.slice(-m)` for an integer `m` (as used on `audioBuffer`): for
`m > 0` it keeps the trailing `m` elements, for `m = 0` it is `arr.slice(0)`
(the whole array), and for `m < 0` it is `arr.slice(|m|)` (drop the first
`|m|` elements). -/
def jsSliceNeg {α : Type} (l : List α) (m : ℤ) : List α :=
  if 0 < m then l.drop (l.length - m.toNat) else l.drop m.natAbs

/-- The `while (offset + this.frameSize <= combinedAudio.length)` loop's frame
extraction (lines 159–183), split from the scoring: returns the list of
complete 512-sample windows in order together with the remainder that is
stored back into `sampleBuffer`.  Structural recursion on a fuel argument so
that the definition evaluates by kernel reduction; `fuel = l.length` always
suffices because each step consumes `frameSize ≥ 1` samples. -/
def splitFramesAux : ℕ → List ℚ → List (List ℚ) × List ℚ
  | 0, l => ([], l)
  | fuel + 1, l =>
    if frameSize ≤ l.length then
      let r := splitFramesAux fuel (l.drop frameSize)
      (l.take frameSize :: r.1, r.2)
    else ([], l)

/-- Frame alignment of a combined buffer: complete windows plus remainder. -/
def splitFrames (l : List ℚ) : List (List ℚ) × List ℚ :=
  splitFramesAux l.length l

/-- The scoring loop body (lines 164–176 together with `processFrame`,
lines 222–248): each iteration runs the scorer on one window, replaces the
recurrent-state token, adds the probability to `totalProbability`, increments
`frameCount` and records `lastProbability`.  A scorer failure propagates as a
JS rejection, carrying the object state at the throw (mutations from earlier
iterations persist). -/
def scoreLoop (score : Scorer) :
    VADState → List (List ℚ) → ℚ → ℕ → Except VADState (VADState × ℚ × ℕ)
  | s, [], totalProbability, frameCount =>
    Except.ok (s, totalProbability, frameCount)
  | s, frame :: rest, totalProbability, frameCount =>
    match score frame s.stateTensor with
    | Except.error _ => Except.error s
    | Except.ok (probability, newState) =>
      scoreLoop score
        { s with stateTensor := newState, lastProbability := probability }
        rest (totalProbability + probability) (frameCount + 1)

/-- The `non-speech` buffer cap (lines 139–151).  `prePadFrames` is
`Math.ceil(prePadSamples / audioData.length)`; when the incoming chunk is
empty JS produces `Infinity` (positive `prePadSamples`), `NaN` (zero) or
`-Infinity` (negative), making the `>` guard false in the first two cases and
emptying the buffer (`slice(Infinity)`) in the third; those cases are spelled
out since rational division by zero would not reproduce them. -/
def nonSpeechTrim (cfg : VADConfig) (chunkLength : ℕ) (buf : List (List ℚ)) :
    List (List ℚ) :=
  let prePadSamples := cfg.preSpeechPadDuration * 16000 / 1000
  if chunkLength = 0 then
    if prePadSamples < 0 then [] else buf
  else
    let prePadFrames := mathCeil (prePadSamples / (chunkLength : ℚ))
    let maxBufferFrames := prePadFrames * 2
    if (buf.length : ℚ) > (maxBufferFrames : ℚ) * (3 / 2) then
      jsSliceNeg buf maxBufferFrames
    else buf

/-- Start of `process` (lines 130–151): record `lastTimestamp`, push a copy of
the chunk onto `audioBuffer`, and cap the buffer when in `'non-speech'`. -/
def pushAudio (cfg : VADConfig) (s : VADState) (audioData : List ℚ)
    (timestamp : ℚ) : VADState :=
  let s1 := { s with
    lastTimestamp := timestamp
    audioBuffer := s.audioBuffer ++ [audioData] }
  if s1.state = SpeechState.nonSpeech then
    { s1 with audioBuffer := nonSpeechTrim cfg audioData.length s1.audioBuffer }
  else s1

/-- The pre-padding start index computed on a speech start (lines 263–270).
`avgFrameLength` is the length of the newest buffered chunk (320 if the buffer
is empty).  When that length is zero JS again yields `Infinity`/`NaN`/
`-Infinity` from the division; `Math.max(0, len - Infinity) = 0`, a `NaN`
index later behaves as index 0 in `slice`, and `-Infinity` gives an index past
the end, spelled out below. -/
def speechStartIndex (cfg : VADConfig) (buf : List (List ℚ)) : ℕ :=
  let avgFrameLength := match buf.getLast? with
    | some c => c.length
    | none => 320
  let prePadSamples := cfg.preSpeechPadDuration * 16000 / 1000
  if avgFrameLength = 0 then
    if prePadSamples < 0 then buf.length else 0
  else
    let prePadFrames := mathCeil (prePadSamples / (avgFrameLength : ℚ))
    (max 0 ((buf.length : ℤ) - prePadFrames)).toNat

/-- `createSpeechSegment` (lines 356–386): concatenate the buffered chunks
from `speechStartBufferIndex` on, derive the duration from the sample count at
16 kHz, and clamp the back-computed start time at zero. -/
def createSpeechSegment (s : VADState) (endTime : ℚ) : Segment :=
  let segmentData := s.audioBuffer.drop s.speechStartBufferIndex
  let totalLength := (segmentData.map List.length).sum
  let audioData := segmentData.flatten
  let durationMs := ((totalLength : ℚ) / 16000) * 1000
  let startTimeSeconds := endTime - durationMs / 1000
  let segmentStart := max 0 startTimeSeconds
  { start := segmentStart
    stop := endTime
    duration := durationMs
    audioData := audioData }

/-- The `audioBuffer` cap applied at the end of `endSpeech` (lines 342–350),
with the fixed assumed chunk length of 320 samples. -/
def endSpeechTrim (cfg : VADConfig) (buf : List (List ℚ)) : List (List ℚ) :=
  let prePadSamples := cfg.preSpeechPadDuration * 16000 / 1000
  let prePadFrames := mathCeil (prePadSamples / (320 : ℚ))
  let maxBufferFrames := prePadFrames * 2
  if (buf.length : ℤ) > maxBufferFrames then jsSliceNeg buf maxBufferFrames
  else buf

/-- `endSpeech` (lines 312–351): compute the run duration from the
caller-supplied timestamps (seconds, scaled by 1000 to milliseconds), attach a
segment to the `speech-end` event only when it reaches `minSpeechDuration`,
then reset the speech-tracking fields and cap the buffer. -/
def endSpeech (cfg : VADConfig) (timestamp probability : ℚ) (s : VADState) :
    VADState × List VADEvent :=
  let speechDurationMs := (timestamp - s.speechStartTime) * 1000
  let segment : Option Segment :=
    if speechDurationMs ≥ cfg.minSpeechDuration then
      some (createSpeechSegment s timestamp)
    else none
  let eventData : VADEventData :=
    { isSpeech := false, probability := probability, timestamp := timestamp,
      segment := segment }
  let s1 := { s with
    state := SpeechState.nonSpeech
    consecutiveSilenceMs := 0
    positiveSpeechFrames := 0
    speechStartBufferIndex := 0
    audioBuffer := endSpeechTrim cfg s.audioBuffer }
  (s1, [VADEvent.speechEnd eventData])

/-- Body of `updateVADState` (lines 254–304): the dual-threshold transition
applied to one probability, returning the mutated state and the emitted
events. -/
def updateVADStateCore (cfg : VADConfig) (probability timestamp : ℚ)
    (s : VADState) : VADState × List VADEvent :=
  if s.state = SpeechState.nonSpeech then
    if probability > cfg.positiveSpeechThreshold then
      ({ s with
          state := SpeechState.speech
          speechStartTime := timestamp
          consecutiveSilenceMs := 0
          positiveSpeechFrames := 1
          speechStartBufferIndex := speechStartIndex cfg s.audioBuffer },
       [VADEvent.speechStart
         { isSpeech := true, probability := probability,
           timestamp := timestamp, segment := none }])
    else (s, [])
  else
    if probability < cfg.negativeSpeechThreshold then
      let frameTimeMs := ((frameSize : ℚ) / 16000) * 1000
      let s1 := { s with
        consecutiveSilenceMs := s.consecutiveSilenceMs + frameTimeMs }
      if s1.consecutiveSilenceMs ≥ cfg.silenceDuration then
        endSpeech cfg timestamp probability s1
      else (s1, [])
    else if probability > cfg.positiveSpeechThreshold then
      ({ s with
          consecutiveSilenceMs := 0
          positiveSpeechFrames := s.positiveSpeechFrames + 1 }, [])
    else (s, [])

/-- `updateVADState` (lines 253–307): the transition body together with the
method's return value, the boolean `this.state === 'speech'` computed at the
end. -/
def updateVADState (cfg : VADConfig) (probability timestamp : ℚ)
    (s : VADState) : VADState × List VADEvent × Bool :=
  let r := updateVADStateCore cfg probability timestamp s
  (r.1, r.2, decide (r.1.state = SpeechState.speech))

/-- `process` (lines 126–217): push the chunk, align and score the complete
windows, store the remainder, and either run one `updateVADState` step on the
averaged probability (at least one window) or fall back to the last known
result, still advancing the silence clock by the chunk duration in the
`speech`-with-`lastIsSpeech = false` corner. -/
def process (score : Scorer) (cfg : VADConfig) (s : VADState)
    (audioData : List ℚ) (timestamp : ℚ) :
    Except VADState (VADState × List VADEvent × ProcessResult) :=
  let s2 := pushAudio cfg s audioData timestamp
  let fr := splitFrames (s2.sampleBuffer ++ audioData)
  match scoreLoop score s2 fr.1 0 0 with
  | Except.error e => Except.error e
  | Except.ok (s3, totalProbability, frameCount) =>
    let s4 := { s3 with sampleBuffer := fr.2 }
    if 0 < frameCount then
      let finalProbability := totalProbability / (frameCount : ℚ)
      let u := updateVADState cfg finalProbability timestamp s4
      Except.ok ({ u.1 with lastIsSpeech := u.2.2 }, u.2.1,
        { isSpeech := u.2.2, probability := finalProbability })
    else
      let finalProbability := s4.lastProbability
      let isSpeech := s4.lastIsSpeech
      if isSpeech = false ∧ s4.state = SpeechState.speech then
        let frameTimeMs := ((audioData.length : ℚ) / 16000) * 1000
        let s5 := { s4 with
          consecutiveSilenceMs := s4.consecutiveSilenceMs + frameTimeMs }
        if s5.consecutiveSilenceMs ≥ cfg.silenceDuration then
          let e := endSpeech cfg timestamp finalProbability s5
          Except.ok ({ e.1 with lastIsSpeech := false }, e.2,
            { isSpeech := false, probability := finalProbability })
        else
          Except.ok (s5, [],
            { isSpeech := isSpeech, probability := finalProbability })
      else
        Except.ok (s4, [],
          { isSpeech := isSpeech, probability := finalProbability })

/-- `flush` (lines 416–423): while in `'speech'`, force a speech end at the
supplied timestamp (falling back to `lastTimestamp`; the further
`?? speechStartTime + 1000` fallback is dead because `lastTimestamp` is always
a number) using the last known probability; otherwise do nothing. -/
def flush (cfg : VADConfig) (s : VADState) (timestamp : Option ℚ) :
    VADState × List VADEvent :=
  if s.state = SpeechState.speech then
    let endTime := timestamp.getD s.lastTimestamp
    endSpeech cfg endTime s.lastProbability s
  else (s, [])

/-- Number of complete windows the frame aligner produces for one call:
`floor((remainder + chunk) / frameSize)` realised by `splitFrames`. -/
def numWindowsScored (s : VADState) (audioData : List ℚ) : ℕ :=
  (splitFrames (s.sampleBuffer ++ audioData)).1.length

/-- Sequential driver over a list of (chunk, timestamp) pairs, counting the
windows scored by each call; used to state the whole-stream conservation law. -/
def processSeq (score : Scorer) (cfg : VADConfig) :
    VADState → List (List ℚ × ℚ) → Except VADState (VADState × ℕ)
  | s, [] => Except.ok (s, 0)
  | s, (c, t) :: rest =>
    match process score cfg s c t with
    | Except.error e => Except.error e
    | Except.ok (s1, _, _) =>
      match processSeq score cfg s1 rest with
      | Except.error e => Except.error e
      | Except.ok (s2, n) => Except.ok (s2, numWindowsScored s c + n)

/-- State component of a completed `process` call (on a rejection the carried
object state is returned, matching JS where the object survives the throw). -/
def okStateOf (e : Except VADState (VADState × List VADEvent × ProcessResult)) :
    VADState :=
  match e with
  | Except.ok (s, _, _) => s
  | Except.error s => s

/-- Events of a completed `process` call (none on a rejection). -/
def okEventsOf (e : Except VADState (VADState × List VADEvent × ProcessResult)) :
    List VADEvent :=
  match e with
  | Except.ok (_, evs, _) => evs
  | Except.error _ => []

/-- Returned `{ isSpeech, probability }` of a completed `process` call. -/
def okResultOf (e : Except VADState (VADState × List VADEvent × ProcessResult)) :
    ProcessResult :=
  match e with
  | Except.ok (_, _, r) => r
  | Except.error _ => { isSpeech := false, probability := 0 }

/-- The segment carried by the first `speech-end` event of an event list. -/
def emittedSegment : List VADEvent → Option Segment
  | [] => none
  | VADEvent.speechEnd d :: _ => d.segment
  | VADEvent.speechStart _ :: evs => emittedSegment evs

/-- Configuration all defaults (what `new SileroVAD({})` resolves to). -/
def defaultConfig : VADConfig where
  positiveSpeechThreshold := 3 / 10
  negativeSpeechThreshold := 1 / 4
  silenceDuration := 1400
  preSpeechPadDuration := 800
  minSpeechDuration := 400

/-- Configuration component of a completed construction. -/
def okConfigOf (e : Except Unit (VADConfig × VADState)) : VADConfig :=
  match e with
  | Except.ok (c, _) => c
  | Except.error _ => defaultConfig

/-! ## Frame alignment arithmetic -/

theorem splitFramesAux_length :
    ∀ (fuel : ℕ) (l : List ℚ), l.length ≤ fuel →
      (splitFramesAux fuel l).1.length * frameSize
          + (splitFramesAux fuel l).2.length
        = l.length
  | 0, l, _ => by simp [splitFramesAux]
  | fuel + 1, l, h => by
    by_cases hc : frameSize ≤ l.length
    · have hf : 0 < frameSize := by decide
      have hdrop : (l.drop frameSize).length ≤ fuel := by
        rw [List.length_drop]
        omega
      have ih := splitFramesAux_length fuel (l.drop frameSize) hdrop
      rw [List.length_drop] at ih
      rw [splitFramesAux]
      rw [if_pos hc]
      dsimp only
      rw [List.length_cons]
      have h2 : ((splitFramesAux fuel (l.drop frameSize)).1.length + 1) * frameSize
            + (splitFramesAux fuel (l.drop frameSize)).2.length
          = ((splitFramesAux fuel (l.drop frameSize)).1.length * frameSize
              + (splitFramesAux fuel (l.drop frameSize)).2.length) + frameSize := by
        ring
      rw [h2, ih, Nat.sub_add_cancel hc]
    · simp [splitFramesAux, if_neg hc]

/-- Conservation law of the frame aligner, on one combined buffer. -/
theorem splitFrames_length (l : List ℚ) :
    (splitFrames l).1.length * frameSize + (splitFrames l).2.length = l.length :=
  splitFramesAux_length l.length l le_rfl

/-! ## Field-preservation lemmas for the pipeline stages -/

theorem pushAudio_fields (cfg : VADConfig) (s : VADState) (a : List ℚ)
    (t : ℚ) :
    (pushAudio cfg s a t).state = s.state ∧
    (pushAudio cfg s a t).sampleBuffer = s.sampleBuffer ∧
    (pushAudio cfg s a t).stateTensor = s.stateTensor ∧
    (pushAudio cfg s a t).lastProbability = s.lastProbability ∧
    (pushAudio cfg s a t).lastIsSpeech = s.lastIsSpeech ∧
    (pushAudio cfg s a t).consecutiveSilenceMs = s.consecutiveSilenceMs ∧
    (pushAudio cfg s a t).speechStartTime = s.speechStartTime ∧
    (pushAudio cfg s a t).speechStartBufferIndex = s.speechStartBufferIndex := by
  by_cases hs : s.state = SpeechState.nonSpeech
  · simp [pushAudio, hs]
  · simp [pushAudio, hs]

theorem scoreLoop_ok (score : Scorer) :
    ∀ (frames : List (List ℚ)) (s : VADState) (tp : ℚ) (fc : ℕ)
      (s2 : VADState) (tp2 : ℚ) (fc2 : ℕ),
      scoreLoop score s frames tp fc = Except.ok (s2, tp2, fc2) →
      s2.state = s.state ∧ s2.audioBuffer = s.audioBuffer ∧
      s2.sampleBuffer = s.sampleBuffer ∧
      s2.speechStartTime = s.speechStartTime ∧
      s2.consecutiveSilenceMs = s.consecutiveSilenceMs ∧
      s2.speechStartBufferIndex = s.speechStartBufferIndex ∧
      s2.lastIsSpeech = s.lastIsSpeech ∧ s2.lastTimestamp = s.lastTimestamp ∧
      fc2 = fc + frames.length
  | [], s, tp, fc, s2, tp2, fc2, h => by
    simp only [scoreLoop, Except.ok.injEq, Prod.mk.injEq] at h
    obtain ⟨rfl, -, rfl⟩ := h
    simp
  | f :: fs, s, tp, fc, s2, tp2, fc2, h => by
    simp only [scoreLoop] at h
    cases hsc : score f s.stateTensor with
    | error e => rw [hsc] at h; cases h
    | ok pr =>
      obtain ⟨p, st2⟩ := pr
      rw [hsc] at h
      have ih := scoreLoop_ok score fs
        { s with stateTensor := st2, lastProbability := p }
        (tp + p) (fc + 1) s2 tp2 fc2 h
      simp only [List.length_cons]
      obtain ⟨i1, i2, i3, i4, i5, i6, i7, i8, i9⟩ := ih
      exact ⟨i1, i2, i3, i4, i5, i6, i7, i8, by omega⟩

theorem endSpeech_fields (cfg : VADConfig) (t p : ℚ) (s : VADState) :
    (endSpeech cfg t p s).1.state = SpeechState.nonSpeech ∧
    (endSpeech cfg t p s).1.sampleBuffer = s.sampleBuffer ∧
    (endSpeech cfg t p s).1.lastIsSpeech = s.lastIsSpeech ∧
    (endSpeech cfg t p s).1.lastProbability = s.lastProbability ∧
    (endSpeech cfg t p s).1.consecutiveSilenceMs = 0 := by
  exact ⟨rfl, rfl, rfl, rfl, rfl⟩

/-- The event list of `endSpeech`: exactly one `speech-end` event, carrying a
segment exactly when the timestamp difference scaled to milliseconds reaches
`minSpeechDuration`. -/
theorem endSpeech_events (cfg : VADConfig) (t p : ℚ) (s : VADState) :
    (endSpeech cfg t p s).2
      = [VADEvent.speechEnd
          { isSpeech := false, probability := p, timestamp := t,
            segment :=
              if (t - s.speechStartTime) * 1000 ≥ cfg.minSpeechDuration then
                some (createSpeechSegment s t)
              else none }] :=
  rfl

theorem emittedSegment_endSpeech (cfg : VADConfig) (t p : ℚ) (s : VADState) :
    emittedSegment (endSpeech cfg t p s).2
      = if (t - s.speechStartTime) * 1000 ≥ cfg.minSpeechDuration then
          some (createSpeechSegment s t)
        else none :=
  rfl

/-! ## `updateVADState` case lemmas -/

theorem updateVADStateCore_speech_silence (cfg : VADConfig) (p t : ℚ)
    (s : VADState) (hspeech : s.state = SpeechState.speech)
    (hneg : p < cfg.negativeSpeechThreshold)
    (hnoend : s.consecutiveSilenceMs + ((frameSize : ℚ) / 16000) * 1000
        < cfg.silenceDuration) :
    updateVADStateCore cfg p t s
      = ({ s with consecutiveSilenceMs :=
            s.consecutiveSilenceMs + ((frameSize : ℚ) / 16000) * 1000 }, []) := by
  have hns : ¬ s.state = SpeechState.nonSpeech := by rw [hspeech]; simp
  have hge : ¬ (s.consecutiveSilenceMs + ((frameSize : ℚ) / 16000) * 1000
      ≥ cfg.silenceDuration) := by
    rw [ge_iff_le]
    exact not_le.mpr hnoend
  simp only [updateVADStateCore, if_neg hns, if_pos hneg]
  rw [if_neg hge]

theorem updateVADStateCore_speech_dead (cfg : VADConfig) (p t : ℚ)
    (s : VADState) (hspeech : s.state = SpeechState.speech)
    (hlo : cfg.negativeSpeechThreshold ≤ p)
    (hhi : p ≤ cfg.positiveSpeechThreshold) :
    updateVADStateCore cfg p t s = (s, []) := by
  have hns : ¬ s.state = SpeechState.nonSpeech := by rw [hspeech]; simp
  simp only [updateVADStateCore, if_neg hns, if_neg (not_lt.mpr hlo),
    if_neg (not_lt.mpr hhi)]

theorem updateVADState_sampleBuffer (cfg : VADConfig) (p t : ℚ)
    (s : VADState) :
    (updateVADState cfg p t s).1.sampleBuffer = s.sampleBuffer := by
  show (updateVADStateCore cfg p t s).1.sampleBuffer = s.sampleBuffer
  by_cases h1 : s.state = SpeechState.nonSpeech
  · by_cases h2 : p > cfg.positiveSpeechThreshold
    · simp [updateVADStateCore, h1, h2]
    · simp [updateVADStateCore, h1, h2]
  · by_cases h3 : p < cfg.negativeSpeechThreshold
    · by_cases h4 : s.consecutiveSilenceMs + ((frameSize : ℚ) / 16000) * 1000
          ≥ cfg.silenceDuration
      · simp only [updateVADStateCore, if_neg h1, if_pos h3]
        rw [if_pos h4]
        exact (endSpeech_fields cfg t p _).2.1
      · simp only [updateVADStateCore, if_neg h1, if_pos h3]
        rw [if_neg h4]
    · by_cases h5 : p > cfg.positiveSpeechThreshold
      · simp [updateVADStateCore, h1, h3, h5]
      · simp [updateVADStateCore, h1, h3, h5]

/-! ## Inversion of a completed `process` call -/

/-- On every completed call, the remainder stored back into `sampleBuffer` is
exactly the tail that frame alignment left over. -/
theorem process_ok_sampleBuffer (score : Scorer) (cfg : VADConfig)
    (s : VADState) (a : List ℚ) (t : ℚ)
    (h : (process score cfg s a t).isOk = true) :
    (okStateOf (process score cfg s a t)).sampleBuffer
      = (splitFrames (s.sampleBuffer ++ a)).2 := by
  cases hp : process score cfg s a t with
  | error e => rw [hp] at h; simp [Except.isOk, Except.toBool] at h
  | ok out =>
    simp only [process, (pushAudio_fields cfg s a t).2.1] at hp
    split at hp
    · cases hp
    · split at hp
      · simp only [Except.ok.injEq] at hp
        subst hp
        dsimp only [okStateOf]
        rw [updateVADState_sampleBuffer]
      · split at hp
        · split at hp
          · simp only [Except.ok.injEq] at hp
            subst hp
            dsimp only [okStateOf]
            rw [(endSpeech_fields cfg t _ _).2.1]
          · simp only [Except.ok.injEq] at hp
            subst hp
            rfl
        · simp only [Except.ok.injEq] at hp
          subst hp
          rfl

/-- Per-call sample conservation, derived from `process_ok_sampleBuffer` and
the aligner arithmetic. -/
theorem process_ok_conservation (score : Scorer) (cfg : VADConfig)
    (s : VADState) (a : List ℚ) (t : ℚ)
    (h : (process score cfg s a t).isOk = true) :
    numWindowsScored s a * frameSize
        + (okStateOf (process score cfg s a t)).sampleBuffer.length
      = s.sampleBuffer.length + a.length := by
  rw [process_ok_sampleBuffer score cfg s a t h]
  have hc := splitFrames_length (s.sampleBuffer ++ a)
  rw [List.length_append] at hc
  exact hc

/-- Whole-stream sample conservation, by induction over the chunk list. -/
theorem processSeq_conservation (score : Scorer) (cfg : VADConfig) :
    ∀ (chunks : List (List ℚ × ℚ)) (s s2 : VADState) (n : ℕ),
      processSeq score cfg s chunks = Except.ok (s2, n) →
      n * frameSize + s2.sampleBuffer.length
        = s.sampleBuffer.length + (chunks.map (fun ct => ct.1.length)).sum
  | [], s, s2, n, h => by
    simp only [processSeq, Except.ok.injEq, Prod.mk.injEq] at h
    obtain ⟨rfl, rfl⟩ := h
    simp
  | (c, t) :: rest, s, s2, n, h => by
    simp only [processSeq] at h
    cases hp : process score cfg s c t with
    | error e => rw [hp] at h; cases h
    | ok out =>
      obtain ⟨s1, evs, r⟩ := out
      rw [hp] at h
      dsimp only at h
      cases hq : processSeq score cfg s1 rest with
      | error e => rw [hq] at h; cases h
      | ok outq =>
        obtain ⟨s3, n3⟩ := outq
        rw [hq] at h
        dsimp only at h
        simp only [Except.ok.injEq, Prod.mk.injEq] at h
        obtain ⟨rfl, rfl⟩ := h
        have hcall := process_ok_conservation score cfg s c t (by rw [hp]; rfl)
        rw [hp] at hcall
        have hrest := processSeq_conservation score cfg rest s1 s3 n3 hq
        have hok : okStateOf (Except.ok (s1, evs, r)) = s1 := rfl
        rw [hok] at hcall
        have hmul : (numWindowsScored s c + n3) * frameSize
            = numWindowsScored s c * frameSize + n3 * frameSize := by ring
        rw [List.map_cons, List.sum_cons, hmul]
        linarith [hcall, hrest]

/-! ## Concrete scorers, chunks and states for witnesses and counterexamples -/

/-- A scorer that always reports probability 9/10 and advances its token. -/
def alwaysSpeechScorer : Scorer := fun _ st => Except.ok (9 / 10, st + 1)

/-- A scorer that always reports probability 1/10 and advances its token. -/
def lowScorer : Scorer := fun _ st => Except.ok (1 / 10, st + 1)

/-- A scorer whose backend always fails. -/
def failingScorer : Scorer := fun _ _ => Except.error ()

/-- A scorer reporting 1/5 on the first window and 4/5 afterwards (keyed on
the recurrent token, which it increments). -/
def twoStepScorer : Scorer :=
  fun _ st => Except.ok (if st = 0 then 1 / 5 else 4 / 5, st + 1)

/-- A scorer reporting 9/10 on the first window and 0 afterwards. -/
def highLowScorer : Scorer :=
  fun _ st => Except.ok (if st = 0 then 9 / 10 else 0, st + 1)

def chunk100 : List ℚ := List.replicate 100 0
def chunk320 : List ℚ := List.replicate 320 0
def chunk512 : List ℚ := List.replicate 512 0
def chunk640 : List ℚ := List.replicate 640 0
def chunk1024 : List ℚ := List.replicate 1024 0

/-- A session in mid-speech: speech began at time 0 and one 512-sample chunk
is buffered from the pre-roll mark on. -/
def speechExampleState : VADState :=
  { initialState with
      state := SpeechState.speech
      lastIsSpeech := true
      lastProbability := 9 / 10
      audioBuffer := [chunk512]
      speechStartBufferIndex := 0
      speechStartTime := 0 }

/-- A session whose fields read `state = speech` with `lastIsSpeech = false`,
exercising the zero-window silence-accumulation branch of `process`. -/
def silentSpeechState : VADState :=
  { speechExampleState with lastIsSpeech := false, lastProbability := 1 / 10 }

/-- Final state of a completed `processSeq` run. -/
def seqStateOf (e : Except VADState (VADState × ℕ)) : VADState :=
  match e with
  | Except.ok (s, _) => s
  | Except.error s => s

/-- Window count of a completed `processSeq` run. -/
def seqCountOf (e : Except VADState (VADState × ℕ)) : ℕ :=
  match e with
  | Except.ok (_, n) => n
  | Except.error _ => 0

/-- State component of a completed `scoreLoop` run. -/
def loopStateOf (e : Except VADState (VADState × ℚ × ℕ)) : VADState :=
  match e with
  | Except.ok (s, _, _) => s
  | Except.error s => s

/-- Probability total of a completed `scoreLoop` run. -/
def loopTotalOf (e : Except VADState (VADState × ℚ × ℕ)) : ℚ :=
  match e with
  | Except.ok (_, tp, _) => tp
  | Except.error _ => 0

/-- Frame count of a completed `scoreLoop` run. -/
def loopCountOf (e : Except VADState (VADState × ℚ × ℕ)) : ℕ :=
  match e with
  | Except.ok (_, _, fc) => fc
  | Except.error _ => 0

/-! ## Claim theorems -/

/-- C1: sample conservation of the frame aligner.  On every completed
`process` call, (windows scored) * 512 plus the carried remainder length
equals the remainder length before the call plus the chunk length; over any
completed sequence of chunks the total windows consumed plus the final
remainder equal the total input samples — no sample dropped or duplicated. -/
theorem sample_conservation (score : Scorer) (cfg : VADConfig) (s : VADState)
    (audioData : List ℚ) (timestamp : ℚ) (chunks : List (List ℚ × ℚ))
    (s2 : VADState) (n : ℕ)
    (h : (process score cfg s audioData timestamp).isOk = true)
    (hseq : processSeq score cfg s chunks = Except.ok (s2, n)) :
    numWindowsScored s audioData * frameSize
        + (okStateOf (process score cfg s audioData timestamp)).sampleBuffer.length
      = s.sampleBuffer.length + audioData.length ∧
    n * frameSize + s2.sampleBuffer.length
      = s.sampleBuffer.length + (chunks.map (fun ct => ct.1.length)).sum :=
  ⟨process_ok_conservation score cfg s audioData timestamp h,
   processSeq_conservation score cfg chunks s s2 n hseq⟩

/-- C1 witness: a 640-sample chunk on an empty remainder scores one window and
carries 128 samples; two 320-sample chunks score one window in total. -/
theorem sample_conservation_witness :
    (process alwaysSpeechScorer defaultConfig initialState chunk640 0).isOk
        = true ∧
    (numWindowsScored initialState chunk640 * frameSize
        + (okStateOf (process alwaysSpeechScorer defaultConfig initialState
            chunk640 0)).sampleBuffer.length
      = initialState.sampleBuffer.length + chunk640.length ∧
    seqCountOf (processSeq alwaysSpeechScorer defaultConfig initialState
          [(chunk320, 0), (chunk320, 1)]) * frameSize
        + (seqStateOf (processSeq alwaysSpeechScorer defaultConfig initialState
            [(chunk320, 0), (chunk320, 1)])).sampleBuffer.length
      = initialState.sampleBuffer.length
          + ([(chunk320, (0 : ℚ)), (chunk320, 1)].map
              (fun ct => ct.1.length)).sum) :=
  ⟨by with_unfolding_all decide,
   sample_conservation alwaysSpeechScorer defaultConfig initialState chunk640 0
     [(chunk320, 0), (chunk320, 1)]
     (seqStateOf (processSeq alwaysSpeechScorer defaultConfig initialState
       [(chunk320, 0), (chunk320, 1)]))
     (seqCountOf (processSeq alwaysSpeechScorer defaultConfig initialState
       [(chunk320, 0), (chunk320, 1)]))
     (by with_unfolding_all decide) (by with_unfolding_all rfl)⟩

/-- C2 counterexample: with the default configuration, a speech run from
`speechStartTime = 0` ended at timestamp 1 has `endTime − speechStartTime = 1`,
below `minSpeechDuration = 400`, yet the `speech-end` event carries a segment:
the gate is not a comparison of the raw timestamp difference (read as
milliseconds) against `minSpeechDuration`. -/
theorem min_duration_gating_counterexample :
    ((1 : ℚ) - speechExampleState.speechStartTime
        < defaultConfig.minSpeechDuration) ∧
    (emittedSegment (endSpeech defaultConfig 1 (1 / 2)
        speechExampleState).2).isSome = true := by
  with_unfolding_all decide

/-- C2 (amended): the caller-supplied timestamps are in seconds, and the end
gate multiplies the difference by 1000: every end transition emits exactly one
`speech-end` event, which carries exactly one assembled segment precisely when
`(endTime − speechStartTime) * 1000 ≥ minSpeechDuration`, and no segment
otherwise. -/
theorem min_duration_gating (cfg : VADConfig) (t p : ℚ) (s : VADState) :
    (endSpeech cfg t p s).2
      = [VADEvent.speechEnd
          { isSpeech := false, probability := p, timestamp := t,
            segment :=
              if cfg.minSpeechDuration ≤ (t - s.speechStartTime) * 1000 then
                some (createSpeechSegment s t)
              else none }] ∧
    ((emittedSegment (endSpeech cfg t p s).2).isSome
      ↔ cfg.minSpeechDuration ≤ (t - s.speechStartTime) * 1000) := by
  constructor
  · rw [endSpeech_events]
  · rw [emittedSegment_endSpeech]
    by_cases hg : (t - s.speechStartTime) * 1000 ≥ cfg.minSpeechDuration
    · rw [if_pos hg]
      simpa using hg
    · rw [if_neg hg]
      simpa using hg

/-- C4: hysteresis dead zone.  In the `speech` state, a probability strictly
between the two thresholds leaves the whole session state unchanged (in
particular the silence accumulator), emits nothing, and keeps reporting
speech; proved for every state, hence for every reachable one. -/
theorem hysteresis_dead_zone (cfg : VADConfig) (probability timestamp : ℚ)
    (s : VADState) (hspeech : s.state = SpeechState.speech)
    (hlo : cfg.negativeSpeechThreshold < probability)
    (hhi : probability < cfg.positiveSpeechThreshold) :
    updateVADState cfg probability timestamp s = (s, [], true) := by
  have hcore := updateVADStateCore_speech_dead cfg probability timestamp s
    hspeech (le_of_lt hlo) (le_of_lt hhi)
  simp only [updateVADState, hcore]
  simp [hspeech]

/-- C4 witness at probability 28/100, between the default thresholds. -/
theorem hysteresis_dead_zone_witness :
    speechExampleState.state = SpeechState.speech ∧
    defaultConfig.negativeSpeechThreshold < 28 / 100 ∧
    (28 / 100 : ℚ) < defaultConfig.positiveSpeechThreshold ∧
    updateVADState defaultConfig (28 / 100) 5 speechExampleState
      = (speechExampleState, [], true) :=
  ⟨rfl, by with_unfolding_all decide, by with_unfolding_all decide,
   hysteresis_dead_zone defaultConfig (28 / 100) 5 speechExampleState rfl
     (by with_unfolding_all decide) (by with_unfolding_all decide)⟩

/-- C5: every emitted segment's duration (ms) equals its assembled sample
count divided by 16000 times 1000, and segments assembled from the same
session state at different caller timestamps have the same duration. -/
theorem segment_duration_from_samples (cfg : VADConfig) (t p t2 p2 : ℚ)
    (s : VADState) (seg seg2 : Segment)
    (h : emittedSegment (endSpeech cfg t p s).2 = some seg)
    (h2 : emittedSegment (endSpeech cfg t2 p2 s).2 = some seg2) :
    seg.duration = ((seg.audioData.length : ℚ) / 16000) * 1000 ∧
    seg2.duration = seg.duration := by
  rw [emittedSegment_endSpeech] at h h2
  split at h
  · simp only [Option.some.injEq] at h
    subst h
    split at h2
    · simp only [Option.some.injEq] at h2
      subst h2
      refine ⟨?_, rfl⟩
      dsimp only [createSpeechSegment]
      rw [List.length_flatten]
    · cases h2
  · cases h

/-- C5 witness on the mid-speech example state, flushed at times 1 and 2. -/
theorem segment_duration_witness :
    (emittedSegment (endSpeech defaultConfig 1 0 speechExampleState).2
        = some (createSpeechSegment speechExampleState 1)) ∧
    (emittedSegment (endSpeech defaultConfig 2 1 speechExampleState).2
        = some (createSpeechSegment speechExampleState 2)) ∧
    (createSpeechSegment speechExampleState 1).duration
      = (((createSpeechSegment speechExampleState 1).audioData.length : ℚ)
          / 16000) * 1000 :=
  ⟨by with_unfolding_all decide, by with_unfolding_all decide,
   (segment_duration_from_samples defaultConfig 1 0 2 1 speechExampleState
     (createSpeechSegment speechExampleState 1)
     (createSpeechSegment speechExampleState 2)
     (by with_unfolding_all decide) (by with_unfolding_all decide)).1⟩

/-- A configuration violating every constraint the spec lists: thresholds
inverted, non-positive durations. -/
def badConfigInput : SileroVADConfigInput where
  positiveSpeechThreshold := some (1 / 5)
  negativeSpeechThreshold := some (1 / 2)
  silenceDuration := some (-5)
  preSpeechPadDuration := some 0
  minSpeechDuration := some (-1)

/-- C6 counterexample: the inverted-threshold, non-positive-duration
configuration is accepted — construction succeeds and stores the bad values
verbatim, so no `negativeThreshold < positiveThreshold` invariant is
established and nothing fails fast. -/
theorem constructor_validation_counterexample :
    (constructSileroVAD badConfigInput).isOk = true ∧
    (okConfigOf (constructSileroVAD badConfigInput)).positiveSpeechThreshold
      ≤ (okConfigOf (constructSileroVAD badConfigInput)).negativeSpeechThreshold ∧
    (okConfigOf (constructSileroVAD badConfigInput)).silenceDuration ≤ 0 ∧
    (okConfigOf (constructSileroVAD badConfigInput)).minSpeechDuration ≤ 0 := by
  with_unfolding_all decide

/-- C6 (amended): construction never fails — the constructor only merges
defaults and performs no validation of thresholds or durations. -/
theorem constructor_never_fails (config : SileroVADConfigInput) :
    (constructSileroVAD config).isOk = true :=
  rfl

/-- C9: `flush` while in `NonSpeech` is a no-op (state untouched, no events),
and a second `flush` immediately after any `flush` is always such a no-op. -/
theorem flush_idempotent (cfg : VADConfig) (s : VADState) (t t2 : Option ℚ) :
    flush cfg { s with state := SpeechState.nonSpeech } t
        = ({ s with state := SpeechState.nonSpeech }, []) ∧
    flush cfg (flush cfg s t).1 t2 = ((flush cfg s t).1, []) := by
  constructor
  · simp [flush]
  · have h1 : ¬ (flush cfg s t).1.state = SpeechState.speech := by
      by_cases hs : s.state = SpeechState.speech
      · rw [show (flush cfg s t).1
            = (endSpeech cfg (t.getD s.lastTimestamp) s.lastProbability s).1
            from by simp [flush, hs]]
        rw [(endSpeech_fields cfg _ _ s).1]
        simp
      · rw [show (flush cfg s t).1 = s from by simp [flush, hs]]
        exact hs
    conv_lhs => rw [flush]
    rw [if_neg h1]

/-- Whether an event list contains a `speech-end` event. -/
def hasSpeechEnd : List VADEvent → Bool
  | [] => false
  | VADEvent.speechEnd _ :: _ => true
  | VADEvent.speechStart _ :: evs => hasSpeechEnd evs

/-- The per-window driving that claim C3 describes, written from the spec's
words (one hysteresis transition per scored window, probabilities consumed in
arrival order): the reference against which the chunk-averaging `process` is
compared. -/
def specPerWindowDrive (cfg : VADConfig) (timestamp : ℚ) :
    VADState → List ℚ → VADState
  | s, [] => s
  | s, p :: ps =>
    specPerWindowDrive cfg timestamp (updateVADState cfg p timestamp s).1 ps

/-- The sequence of probabilities the scorer assigns to a window list,
threading the recurrent token, in arrival order. -/
def scoredTrace (score : Scorer) : ℚ → List (List ℚ) → Except Unit (List ℚ)
  | _, [] => Except.ok []
  | st, f :: fs =>
    match score f st with
    | Except.error e => Except.error e
    | Except.ok (p, st2) =>
      match scoredTrace score st2 fs with
      | Except.error e => Except.error e
      | Except.ok ps => Except.ok (p :: ps)

/-- C3 counterexample: from a mid-speech state, a 1024-sample chunk is scored
as two windows with probabilities 9/10 then 0.  Driving the machine once per
window (as the claim states) must add one window duration (32 ms) to the
silence accumulator for the second window; the code instead performs a single
transition on the average 9/20, which resets the accumulator to 0 and leaves
no trace of the sub-threshold window. -/
theorem per_window_counterexample :
    scoredTrace highLowScorer speechExampleState.stateTensor
        (splitFrames (speechExampleState.sampleBuffer ++ chunk1024)).1
      = Except.ok [9 / 10, 0] ∧
    (specPerWindowDrive defaultConfig 1 speechExampleState
        [9 / 10, 0]).consecutiveSilenceMs = 32 ∧
    (okStateOf (process highLowScorer defaultConfig speechExampleState
        chunk1024 1)).consecutiveSilenceMs = 0 :=
  ⟨by with_unfolding_all rfl, by with_unfolding_all decide,
   by with_unfolding_all decide⟩

/-- C3 (amended): for a chunk completing k ≥ 1 windows, the state machine
performs exactly one transition, consuming the arithmetic mean of the k window
probabilities; in `speech`, when that mean is below `negativeSpeechThreshold`
(and the silence budget is not yet exhausted) the accumulator grows by exactly
one window duration (512/16000 s = 32 ms) for the whole chunk, regardless of
k, and the mean is also the probability returned to the caller. -/
theorem averaged_single_transition (score : Scorer) (cfg : VADConfig)
    (s : VADState) (audioData : List ℚ) (timestamp : ℚ)
    (s3 : VADState) (tp : ℚ) (k : ℕ)
    (hscore : scoreLoop score (pushAudio cfg s audioData timestamp)
        (splitFrames ((pushAudio cfg s audioData timestamp).sampleBuffer
          ++ audioData)).1 0 0
      = Except.ok (s3, tp, k))
    (hk : 0 < k)
    (hspeech : s.state = SpeechState.speech)
    (hmean : tp / (k : ℚ) < cfg.negativeSpeechThreshold)
    (hnoend : s.consecutiveSilenceMs + ((frameSize : ℚ) / 16000) * 1000
        < cfg.silenceDuration) :
    (okStateOf (process score cfg s audioData timestamp)).consecutiveSilenceMs
        = s.consecutiveSilenceMs + ((frameSize : ℚ) / 16000) * 1000 ∧
    (okStateOf (process score cfg s audioData timestamp)).state
        = SpeechState.speech ∧
    okEventsOf (process score cfg s audioData timestamp) = [] ∧
    (okResultOf (process score cfg s audioData timestamp)).probability
        = tp / (k : ℚ) := by
  have hloop := scoreLoop_ok score _ _ _ _ _ _ _ hscore
  have hpush := pushAudio_fields cfg s audioData timestamp
  have hstate3 : s3.state = SpeechState.speech := by
    rw [hloop.1, hpush.1, hspeech]
  have hsil3 : s3.consecutiveSilenceMs = s.consecutiveSilenceMs := by
    rw [hloop.2.2.2.2.1, hpush.2.2.2.2.2.1]
  have hcore := updateVADStateCore_speech_silence cfg (tp / (k : ℚ)) timestamp
    { s3 with sampleBuffer := (splitFrames ((pushAudio cfg s audioData
        timestamp).sampleBuffer ++ audioData)).2 }
    hstate3 hmean (by rw [show ({ s3 with sampleBuffer := (splitFrames
      ((pushAudio cfg s audioData timestamp).sampleBuffer
        ++ audioData)).2 } : VADState).consecutiveSilenceMs
      = s.consecutiveSilenceMs from hsil3]; exact hnoend)
  simp only [process]
  rw [hscore]
  dsimp only
  rw [if_pos hk]
  simp only [updateVADState, hcore]
  dsimp only [okStateOf, okEventsOf, okResultOf]
  refine ⟨hsil3 ▸ rfl, ?_, rfl, rfl⟩
  exact hstate3

/-- C3 witness: from the mid-speech state, two windows of probability 1/10
each give mean 1/10 < 1/4, and the accumulator grows by exactly 32 ms. -/
theorem averaged_single_transition_witness :
    (scoreLoop lowScorer (pushAudio defaultConfig speechExampleState chunk1024 1)
        (splitFrames ((pushAudio defaultConfig speechExampleState chunk1024
          1).sampleBuffer ++ chunk1024)).1 0 0
      = Except.ok (loopStateOf (scoreLoop lowScorer (pushAudio defaultConfig
          speechExampleState chunk1024 1) (splitFrames ((pushAudio
          defaultConfig speechExampleState chunk1024 1).sampleBuffer
            ++ chunk1024)).1 0 0),
        loopTotalOf (scoreLoop lowScorer (pushAudio defaultConfig
          speechExampleState chunk1024 1) (splitFrames ((pushAudio
          defaultConfig speechExampleState chunk1024 1).sampleBuffer
            ++ chunk1024)).1 0 0),
        loopCountOf (scoreLoop lowScorer (pushAudio defaultConfig
          speechExampleState chunk1024 1) (splitFrames ((pushAudio
          defaultConfig speechExampleState chunk1024 1).sampleBuffer
            ++ chunk1024)).1 0 0))) ∧
    (okStateOf (process lowScorer defaultConfig speechExampleState chunk1024
        1)).consecutiveSilenceMs
      = speechExampleState.consecutiveSilenceMs
          + ((frameSize : ℚ) / 16000) * 1000 :=
  ⟨by with_unfolding_all rfl,
   (averaged_single_transition lowScorer defaultConfig speechExampleState
     chunk1024 1 _ _ _ (by with_unfolding_all rfl)
     (by with_unfolding_all decide) rfl (by with_unfolding_all decide)
     (by with_unfolding_all decide)).1⟩

/-- C7 counterexample: a 512-sample chunk completes one window, and a failing
scorer makes the whole `process` call reject — the failure is session-fatal
for that call rather than surfaced as a recoverable event. -/
theorem scorer_failure_counterexample :
    numWindowsScored initialState chunk512 = 1 ∧
    (process failingScorer defaultConfig initialState chunk512 0).isOk
        = false := by
  with_unfolding_all decide

/-- C7 (amended): a scorer failure on the first window of a call propagates
out of `process` as a rejection carrying the object state at the throw; that
state still holds the previous probability, the previous recurrent state and
the previous remainder buffer (no corruption), but no event is emitted and
the call does not continue with later windows. -/
theorem scorer_failure_propagates (score : Scorer) (cfg : VADConfig)
    (s : VADState) (audioData : List ℚ) (timestamp : ℚ)
    (w : List ℚ) (ws : List (List ℚ))
    (hframes : (splitFrames ((pushAudio cfg s audioData timestamp).sampleBuffer
        ++ audioData)).1 = w :: ws)
    (hfail : score w s.stateTensor = Except.error ()) :
    process score cfg s audioData timestamp
        = Except.error (pushAudio cfg s audioData timestamp) ∧
    (pushAudio cfg s audioData timestamp).lastProbability
        = s.lastProbability ∧
    (pushAudio cfg s audioData timestamp).stateTensor = s.stateTensor ∧
    (pushAudio cfg s audioData timestamp).sampleBuffer = s.sampleBuffer := by
  have hpush := pushAudio_fields cfg s audioData timestamp
  refine ⟨?_, hpush.2.2.2.1, hpush.2.2.1, hpush.2.1⟩
  simp only [process]
  rw [hframes]
  simp only [scoreLoop]
  rw [hpush.2.2.1, hfail]

/-- C7 witness: the failing scorer on a fresh session and one full window. -/
theorem scorer_failure_propagates_witness :
    ((splitFrames ((pushAudio defaultConfig initialState chunk512
        0).sampleBuffer ++ chunk512)).1
      = [chunk512] ∧ failingScorer chunk512 initialState.stateTensor
        = Except.error ()) ∧
    process failingScorer defaultConfig initialState chunk512 0
        = Except.error (pushAudio defaultConfig initialState chunk512 0) :=
  ⟨⟨by with_unfolding_all decide, rfl⟩,
   (scorer_failure_propagates failingScorer defaultConfig initialState
     chunk512 0 chunk512 [] (by with_unfolding_all decide) rfl).1⟩

/-- C8 counterexample: start speech at timestamp −1 (one 512-sample window of
probability 9/10), then `flush` at timestamp 0: the run passes the 400 ms
gate (duration 1000 ms), a segment is emitted, and its clamped start equals
its end (both 0) — `end > start` fails. -/
theorem segment_ordering_counterexample :
    (emittedSegment (flush defaultConfig
        (okStateOf (process alwaysSpeechScorer defaultConfig initialState
          chunk512 (-1))) (some 0)).2).isSome = true ∧
    ¬ ((emittedSegment (flush defaultConfig
        (okStateOf (process alwaysSpeechScorer defaultConfig initialState
          chunk512 (-1))) (some 0)).2).getD
        { start := 0, stop := 0, duration := 0, audioData := [] }).start
      < ((emittedSegment (flush defaultConfig
        (okStateOf (process alwaysSpeechScorer defaultConfig initialState
          chunk512 (-1))) (some 0)).2).getD
        { start := 0, stop := 0, duration := 0, audioData := [] }).stop := by
  with_unfolding_all decide

/-- C8 (amended): an emitted segment satisfies `end > start` whenever its end
timestamp is positive and its assembled audio is nonempty; with a
non-positive caller-supplied end timestamp (or an empty assembly) the clamp
`start = max(0, end − duration)` yields `start = end` instead. -/
theorem segment_ordering (cfg : VADConfig) (t p : ℚ) (s : VADState)
    (seg : Segment)
    (h : emittedSegment (endSpeech cfg t p s).2 = some seg)
    (hstop : 0 < seg.stop) (hne : seg.audioData ≠ []) :
    seg.start < seg.stop := by
  rw [emittedSegment_endSpeech] at h
  split at h
  · simp only [Option.some.injEq] at h
    subst h
    dsimp only [createSpeechSegment] at hstop hne ⊢
    have hL : 0 < ((s.audioBuffer.drop s.speechStartBufferIndex).map
        List.length).sum := by
      have hlen : (s.audioBuffer.drop
          s.speechStartBufferIndex).flatten.length ≠ 0 := by
        intro hzero
        exact hne (List.length_eq_zero.mp hzero)
      rw [List.length_flatten] at hlen
      omega
    have hQ : (0 : ℚ) < (((s.audioBuffer.drop s.speechStartBufferIndex).map
        List.length).sum : ℚ) := by
      exact_mod_cast hL
    have hd : (0 : ℚ) < ((((s.audioBuffer.drop
        s.speechStartBufferIndex).map List.length).sum : ℚ) / 16000 * 1000)
          / 1000 := by
      apply div_pos
      · apply mul_pos
        · apply div_pos hQ
          norm_num
        · norm_num
      · norm_num
    apply max_lt hstop
    linarith
  · cases h

/-- C8 witness: the mid-speech example state flushed at time 1 yields a
segment with 512 samples, end 1 and start 1 − 0.032 > 0. -/
theorem segment_ordering_witness :
    (emittedSegment (endSpeech defaultConfig 1 0 speechExampleState).2
        = some (createSpeechSegment speechExampleState 1) ∧
      (0 : ℚ) < (createSpeechSegment speechExampleState 1).stop ∧
      (createSpeechSegment speechExampleState 1).audioData ≠ []) ∧
    (createSpeechSegment speechExampleState 1).start
      < (createSpeechSegment speechExampleState 1).stop :=
  ⟨⟨by with_unfolding_all decide, by with_unfolding_all decide,
    by with_unfolding_all decide⟩,
   segment_ordering defaultConfig 1 0 speechExampleState
     (createSpeechSegment speechExampleState 1)
     (by with_unfolding_all decide) (by with_unfolding_all decide)
     (by with_unfolding_all decide)⟩

/-- C10 counterexample: a 1024-sample chunk scored as windows 1/5 and 4/5
returns the averaged probability 1/2; a following 100-sample (zero-window)
call returns 4/5 — the probability of the last scored window — not the 1/2 the
previous call returned, so the zero-window call does not reproduce the
previous call's return value. -/
theorem zero_window_counterexample :
    (okResultOf (process twoStepScorer defaultConfig initialState chunk1024
        0)).probability = 1 / 2 ∧
    numWindowsScored (okStateOf (process twoStepScorer defaultConfig
        initialState chunk1024 0)) chunk100 = 0 ∧
    (okResultOf (process twoStepScorer defaultConfig
        (okStateOf (process twoStepScorer defaultConfig initialState
          chunk1024 0)) chunk100 1)).probability = 4 / 5 ∧
    (4 / 5 : ℚ) ≠ (okResultOf (process twoStepScorer defaultConfig
        initialState chunk1024 0)).probability := by
  with_unfolding_all decide

/-- C10 (amended): on a zero-window call the scorer is never consulted (the
result is the same for every scorer) and the call returns `lastProbability` —
the probability of the most recently scored window, which differs from the
previous call's averaged return value when that call scored several windows —
with the previous `isSpeech`; when the stored fields read `speech` with
`lastIsSpeech = false`, the silence accumulator still grows by the chunk
duration, and reaching `silenceDuration` triggers the speech-end transition
with no new window scored. -/
theorem zero_window_call (score score2 : Scorer) (cfg : VADConfig)
    (s : VADState) (audioData : List ℚ) (timestamp : ℚ)
    (h0 : numWindowsScored s audioData = 0) :
    process score cfg s audioData timestamp
        = process score2 cfg s audioData timestamp ∧
    (process score cfg s audioData timestamp).isOk = true ∧
    (okResultOf (process score cfg s audioData timestamp)).probability
        = s.lastProbability ∧
    (¬ (s.lastIsSpeech = false ∧ s.state = SpeechState.speech) →
      (okResultOf (process score cfg s audioData timestamp)).isSpeech
          = s.lastIsSpeech ∧
      (okStateOf (process score cfg s audioData timestamp)).consecutiveSilenceMs
          = s.consecutiveSilenceMs) ∧
    (s.lastIsSpeech = false → s.state = SpeechState.speech →
      s.consecutiveSilenceMs + ((audioData.length : ℚ) / 16000) * 1000
          < cfg.silenceDuration →
      (okStateOf (process score cfg s audioData timestamp)).consecutiveSilenceMs
          = s.consecutiveSilenceMs
              + ((audioData.length : ℚ) / 16000) * 1000 ∧
      (okStateOf (process score cfg s audioData timestamp)).state
          = SpeechState.speech) ∧
    (s.lastIsSpeech = false → s.state = SpeechState.speech →
      cfg.silenceDuration ≤ s.consecutiveSilenceMs
          + ((audioData.length : ℚ) / 16000) * 1000 →
      (okStateOf (process score cfg s audioData timestamp)).state
          = SpeechState.nonSpeech ∧
      (okResultOf (process score cfg s audioData timestamp)).isSpeech
          = false ∧
      hasSpeechEnd (okEventsOf (process score cfg s audioData timestamp))
          = true) := by
  unfold numWindowsScored at h0
  have hnil : (splitFrames ((pushAudio cfg s audioData timestamp).sampleBuffer
      ++ audioData)).1 = [] := by
    rw [(pushAudio_fields cfg s audioData timestamp).2.1]
    exact List.length_eq_zero.mp h0
  have hpush := pushAudio_fields cfg s audioData timestamp
  simp only [process, hnil, scoreLoop]
  rw [if_neg (lt_irrefl 0)]
  rw [show ({ pushAudio cfg s audioData timestamp with
      sampleBuffer := (splitFrames ((pushAudio cfg s audioData
        timestamp).sampleBuffer ++ audioData)).2 } : VADState).lastIsSpeech
    = s.lastIsSpeech from hpush.2.2.2.2.1]
  rw [show ({ pushAudio cfg s audioData timestamp with
      sampleBuffer := (splitFrames ((pushAudio cfg s audioData
        timestamp).sampleBuffer ++ audioData)).2 } : VADState).state
    = s.state from hpush.1]
  rw [show ({ pushAudio cfg s audioData timestamp with
      sampleBuffer := (splitFrames ((pushAudio cfg s audioData
        timestamp).sampleBuffer ++ audioData)).2 }
        : VADState).lastProbability
    = s.lastProbability from hpush.2.2.2.1]
  rw [show ({ pushAudio cfg s audioData timestamp with
      sampleBuffer := (splitFrames ((pushAudio cfg s audioData
        timestamp).sampleBuffer ++ audioData)).2 }
        : VADState).consecutiveSilenceMs
    = s.consecutiveSilenceMs from hpush.2.2.2.2.2.1]
  by_cases hb : s.lastIsSpeech = false ∧ s.state = SpeechState.speech
  · rw [if_pos hb]
    by_cases hsil : s.consecutiveSilenceMs
        + ((audioData.length : ℚ) / 16000) * 1000 ≥ cfg.silenceDuration
    · rw [if_pos hsil]
      refine ⟨trivial, rfl, rfl, ?_, ?_, ?_⟩
      · intro hcon
        exact absurd hb hcon
      · intro _ _ hlt
        exact absurd hsil (not_le.mpr hlt)
      · intro _ _ _
        refine ⟨?_, rfl, rfl⟩
        dsimp only [okStateOf]
        exact (endSpeech_fields cfg timestamp s.lastProbability _).1
    · rw [if_neg hsil]
      refine ⟨trivial, rfl, rfl, ?_, ?_, ?_⟩
      · intro hcon
        exact absurd hb hcon
      · intro _ hsp _
        exact ⟨rfl, hsp⟩
      · intro _ _ hge
        exact absurd hge hsil
  · rw [if_neg hb]
    refine ⟨trivial, rfl, rfl, ?_, ?_, ?_⟩
    · intro _
      exact ⟨rfl, rfl⟩
    · intro hfalse hsp _
      exact absurd ⟨hfalse, hsp⟩ hb
    · intro hfalse hsp _
      exact absurd ⟨hfalse, hsp⟩ hb

/-- C10 witness: a speech-with-`lastIsSpeech = false` state and a 100-sample
chunk: the accumulator grows by 6.25 ms and the returned probability is the
stored last window probability. -/
theorem zero_window_call_witness :
    numWindowsScored silentSpeechState chunk100 = 0 ∧
    ((okResultOf (process alwaysSpeechScorer defaultConfig silentSpeechState
        chunk100 5)).probability = silentSpeechState.lastProbability ∧
    (okStateOf (process alwaysSpeechScorer defaultConfig silentSpeechState
        chunk100 5)).consecutiveSilenceMs
      = silentSpeechState.consecutiveSilenceMs
          + ((chunk100.length : ℚ) / 16000) * 1000) :=
  ⟨by with_unfolding_all decide,
   (zero_window_call alwaysSpeechScorer failingScorer defaultConfig
     silentSpeechState chunk100 5 (by with_unfolding_all decide)).2.2.1,
   ((zero_window_call alwaysSpeechScorer failingScorer defaultConfig
     silentSpeechState chunk100 5
     (by with_unfolding_all decide)).2.2.2.2.1 rfl rfl
     (by with_unfolding_all decide)).1⟩

end SileroVAD
